import Mathlib

/-
Shallow embedding of the weather-intelligence-api core subsystems:
`src/app/cache.py`, `src/app/batch.py`, `src/app/webhooks.py`, the batch
request validation in `src/app/main.py` (`batch_weather_request`), and the
scoring function `_calculate_weather_score` in `src/app/main.py`.

Modelling conventions:
- Python `str` is Lean `String` (character lists where list reasoning helps).
- Python floats are modelled as rationals `ℚ`; the comparisons and arithmetic
  exercised by the embedded code are exact in this range.
- Python dicts are association lists in insertion order with unique keys;
  assignment replaces in place, `del` removes the key.
- `time.time()` / `datetime.utcnow()` are passed in as explicit `now` arguments.
- Network I/O (`httpx` round-trips plus the JSON schema transform) is an
  explicit oracle argument; all control flow around it is embedded exactly.
- Fallible Python code (a `float(...)` call that can raise `ValueError`, a
  loop that can propagate an exception) is embedded with `Except`/`Option`.
-/

namespace WeatherApi

/-- Leading-match test: does `needle` occur at the head of `hay`? -/
def isPrefixList : List Char → List Char → Bool
  | [], _ => true
  | _ :: _, [] => false
  | a :: as, b :: bs => a == b && isPrefixList as bs

/-- Substring occurrence test on character lists. -/
def containsSub (needle : List Char) : List Char → Bool
  | [] => needle == []
  | c :: rest => isPrefixList needle (c :: rest) || containsSub needle rest

/-- Python membership test `needle in hay` on strings: substring search. -/
def pyIn (needle hay : String) : Bool :=
  containsSub needle.data hay.data

/-- Python `str.lower()`. -/
def pyLower (s : String) : String :=
  ⟨s.data.map Char.toLower⟩

/-- Python dict lookup `d[k]` / `d.get(k)` on an insertion-ordered assoc list. -/
def dictGet (k : String) : List (String × β) → Option β
  | [] => Option.none
  | (k', v') :: rest => if k' = k then some v' else dictGet k rest

/-- Python dict assignment `d[k] = v`: replaces in place, else appends. -/
def dictSet (k : String) (v : β) : List (String × β) → List (String × β)
  | [] => [(k, v)]
  | (k', v') :: rest => if k' = k then (k, v) :: rest else (k', v') :: dictSet k v rest

/-- Python `del d[k]`: removes the (unique) binding of `k`. -/
def dictDel (k : String) : List (String × β) → List (String × β)
  | [] => []
  | (k', v') :: rest => if k' = k then rest else (k', v') :: dictDel k rest

/-- Python truthiness of an `Optional[float]`: `None` and `0.0` are falsy. -/
def truthy : Option ℚ → Bool
  | Option.none => false
  | some v => v ≠ 0

/-- Temperature-band block of `_calculate_weather_score` (`src/app/main.py`
lines 883-889): the amount the if/elif chain adds to `score`. -/
def tempAdjust (temp : ℚ) : ℤ :=
  if 18 ≤ temp ∧ temp ≤ 25 then 30
  else if 15 ≤ temp ∧ temp ≤ 30 then 20
  else if 10 ≤ temp ∧ temp ≤ 35 then 10
  else 0

/-- Humidity-band block of `_calculate_weather_score` (lines 891-895). -/
def humidityAdjust (humidity : ℚ) : ℤ :=
  if 40 ≤ humidity ∧ humidity ≤ 60 then 20
  else if 30 ≤ humidity ∧ humidity ≤ 70 then 10
  else 0

/-- Weather-condition block of `_calculate_weather_score` (lines 897-907),
operating on the lowercased description. -/
def conditionAdjust (desc : String) : ℤ :=
  if pyIn "clear" desc then 20
  else if pyIn "few clouds" desc || pyIn "scattered clouds" desc then 15
  else if pyIn "broken clouds" desc || pyIn "overcast" desc then 5
  else if pyIn "rain" desc then -20
  else if pyIn "storm" desc || pyIn "thunderstorm" desc then -30
  else 0

/-- Weather score, from `_calculate_weather_score` in `src/app/main.py`
(lines 875-909): base 50, plus the temperature, humidity and condition
if/elif blocks applied in sequence, clamped to [0, 100]. -/
def _calculate_weather_score (temp humidity : ℚ) (description : String) : ℤ :=
  max 0 (min 100
    (50 + tempAdjust temp + humidityAdjust humidity
       + conditionAdjust (pyLower description)))

/-- A parameter value appearing in a cache-key `params` dict: a float, a
string, or Python `None` (`country` may be `None`). -/
inductive PVal where
  | num : ℚ → PVal
  | str : String → PVal
  | null : PVal
deriving DecidableEq

/-- Query parameters: a Python dict, modelled as key/value pairs. -/
abbrev Params := List (String × PVal)

/-- Rendering of one parameter value in the serialized key. `json.dumps`
renders floats in decimal; only determinism of the rendering is ever used,
so rationals are rendered as numerator/denominator. -/
def renderPVal : PVal → String
  | PVal.num q => toString q.num ++ "." ++ toString q.den
  | PVal.str s => "'" ++ s ++ "'"
  | PVal.null => "null"

/-- Rendering of a parameter list in order, as `json.dumps` renders an
object's members in the order given. -/
def renderParams : Params → String
  | [] => ""
  | (k, v) :: rest => k ++ "=" ++ renderPVal v ++ ";" ++ renderParams rest

/-- Lexicographic string comparison by code point, the order used by
Python's `sorted` on `str`. -/
def charListLe : List Char → List Char → Bool
  | [], _ => true
  | _ :: _, [] => false
  | a :: as, b :: bs => if a < b then true else if b < a then false else charListLe as bs

/-- Key ordering used by `json.dumps(..., sort_keys=True)`: compare the
pair's keys. -/
def keyLe (a b : String × PVal) : Prop := charListLe a.1.data b.1.data = true

instance : DecidableRel keyLe := fun a b =>
  instDecidableEqBool (charListLe a.1.data b.1.data) true

/-- MD5 stands for the digest step of `_generate_key`. The only property the
code relies on is that it is a fixed deterministic function of its input, so
the digest is modelled as the input string itself. -/
def md5 (s : String) : String := s

/-- Key derivation, from `WeatherCache._generate_key` (`src/app/cache.py`
lines 14-19): serialize the params with sorted keys, prepend the endpoint,
and hash. -/
def _generate_key (endpoint : String) (params : Params) : String :=
  let sorted_params := renderParams (params.insertionSort keyLe)
  let key_string := endpoint ++ ":" ++ sorted_params
  md5 key_string

/-- One entry of the global `CACHE` dict: `data`, `timestamp`, `hits`,
`endpoint` (`src/app/cache.py` lines 39-44). -/
structure CacheEntry (α : Type) where
  data : α
  timestamp : ℚ
  hits : ℕ
  endpoint : String
deriving DecidableEq

/-- The global `CACHE` dict keyed by derived keys. -/
abbrev Cache (α : Type) := List (String × CacheEntry α)

/-- Cache read, from `WeatherCache.get` (lines 21-34). `now` is the value of
`time.time()`; returns the hit (if any) and the updated `CACHE` (a fresh hit
increments `hits`; an expired entry is deleted). -/
def cache_get (ttl now : ℚ) (endpoint : String) (params : Params) (c : Cache α) :
    Option α × Cache α :=
  let key := _generate_key endpoint params
  match dictGet key c with
  | some entry =>
    if now - entry.timestamp < ttl then
      (some entry.data, dictSet key { entry with hits := entry.hits + 1 } c)
    else
      (Option.none, dictDel key c)
  | Option.none => (Option.none, c)

/-- Cache write, from `WeatherCache.set` (lines 36-44). -/
def cache_set (now : ℚ) (endpoint : String) (params : Params) (data : α)
    (c : Cache α) : Cache α :=
  dictSet (_generate_key endpoint params)
    { data := data, timestamp := now, hits := 0, endpoint := endpoint } c

/-- Statistics relevant to the claims, from `WeatherCache.get_stats`
(lines 59-77): `total_entries` is `len(CACHE)`, `total_hits` sums the per
entry hit counts. The per-endpoint breakdown and approximate size are
derived the same way and add nothing to the claims. -/
structure CacheStats where
  total_entries : ℕ
  total_hits : ℕ
deriving DecidableEq

/-- Model of `WeatherCache.get_stats`. -/
def get_stats (c : Cache α) : CacheStats :=
  { total_entries := c.length
    total_hits := (c.map (fun kv => kv.2.hits)).sum }

/-- Cache-key parameter construction for weather requests, from
`cache_key_for_weather` (`src/app/cache.py` lines 82-89). Note the Python
truthiness test `if lat and lon:`. -/
def cache_key_for_weather (city : String) (country : Option String)
    (lat lon : Option ℚ) (units : String) : Params :=
  if truthy lat && truthy lon then
    [("lat", PVal.num (lat.getD 0)), ("lon", PVal.num (lon.getD 0)),
     ("units", PVal.str units)]
  else
    [("city", PVal.str city),
     ("country", match country with | some co => PVal.str co | Option.none => PVal.null),
     ("units", PVal.str units)]

/-- One batch location, from `BatchLocationRequest` (`src/app/batch.py`
lines 7-11). -/
structure BatchLocation where
  city : String
  country : Option String
  lat : Option ℚ
  lon : Option ℚ
deriving DecidableEq

/-- A batch request, from `BatchWeatherRequest` (lines 13-17); the optional
fields carry their defaults explicitly. -/
structure BatchWeatherRequest where
  locations : List BatchLocation
  endpoints : List String
  units : String
  forecast_days : ℕ
deriving DecidableEq

/-- A value in a result dict of the batch subsystem: a string (error or
endpoint tag), or the `location.dict()` echo attached to error payloads. -/
inductive DVal where
  | str : String → DVal
  | locd : BatchLocation → DVal
deriving DecidableEq

/-- A Python dict produced by `fetch_weather_data`. -/
abbrev Dict := List (String × DVal)

/-- Provider URL for the `current` endpoint (`src/app/batch.py` line 29). -/
def weatherUrl : String := "http://api.openweathermap.org/data/2.5/weather"

/-- Provider URL for the `forecast` endpoint (line 31). -/
def forecastUrl : String := "http://api.openweathermap.org/data/2.5/forecast"

/-- URL selection of `fetch_weather_data` (lines 28-31), for the two
supported endpoints. -/
def urlFor (endpoint : String) : String :=
  if endpoint = "current" then weatherUrl else forecastUrl

/-- Provider query construction of `fetch_weather_data` (lines 36-48): the
Python truthiness test `if location.lat and location.lon:` selects the
coordinate form, else the `q` city/country form. -/
def buildParams (loc : BatchLocation) (apiKey units : String) : Params :=
  if truthy loc.lat && truthy loc.lon then
    [("lat", PVal.num (loc.lat.getD 0)), ("lon", PVal.num (loc.lon.getD 0)),
     ("appid", PVal.str apiKey), ("units", PVal.str units)]
  else
    [("q", PVal.str (match loc.country with
        | some co => loc.city ++ "," ++ co
        | Option.none => loc.city)),
     ("appid", PVal.str apiKey), ("units", PVal.str units)]

/-- Full request parameters including the `cnt` the code appends for the
forecast endpoint (lines 50-51). -/
def fetchParams (loc : BatchLocation) (apiKey units endpoint : String)
    (forecast_days : ℕ) : Params :=
  let params := buildParams loc apiKey units
  if endpoint = "forecast" then
    params ++ [("cnt", PVal.num ((forecast_days : ℚ) * 8))]
  else params

/-- Single-unit fetch, from `fetch_weather_data` (`src/app/batch.py`
lines 24-111). The HTTP round-trip plus the endpoint-specific JSON schema
transform is abstracted as the oracle `net url params`, which yields either
the transformed payload dict or the message of the raised exception
(timeout, non-2xx, malformed body, missing schema field). The control flow
around the oracle is embedded exactly: an unsupported endpoint returns an
error dict carrying only the message (lines 32-33, before any request),
and the catch-all `except` (lines 106-111) turns a raised exception into an
error dict tagged with the originating location and endpoint. -/
def fetch_weather_data (net : String → Params → Except String Dict)
    (apiKey : String) (loc : BatchLocation) (endpoint units : String)
    (forecast_days : ℕ) : Dict :=
  if endpoint = "current" ∨ endpoint = "forecast" then
    match net (urlFor endpoint) (fetchParams loc apiKey units endpoint forecast_days) with
    | Except.ok payload => payload
    | Except.error e =>
        [("error", DVal.str e), ("location", DVal.locd loc),
         ("endpoint", DVal.str endpoint)]
  else
    [("error", DVal.str ("Unsupported endpoint: " ++ endpoint))]

/-- An item returned by `asyncio.gather(*tasks, return_exceptions=True)`:
a raised exception or the coroutine's return value. `fetch_weather_data`
has a catch-all `except`, so in this embedding every item is a value; the
exception arm is kept because the result loop handles it. -/
inductive GItem where
  | exn : String → GItem
  | val : Dict → GItem
deriving DecidableEq

/-- The result-processing loop body of `process_batch_request`
(lines 138-147): exceptions become bare error dicts, value dicts are
appended unchanged. -/
def processedResult : GItem → Dict
  | GItem.exn e => [("error", DVal.str e)]
  | GItem.val d => d

/-- Error classification of one gathered item (lines 139-144):
an exception, or a dict carrying an `error` key. -/
def isErrorItem : GItem → Bool
  | GItem.exn _ => true
  | GItem.val d => (dictGet "error" d).isSome

/-- Task-list construction of `process_batch_request` (lines 119-128):
locations in the outer loop, endpoints in the inner loop. -/
def crossTasks (locs : List α) (eps : List β) (f : α → β → γ) : List γ :=
  match locs with
  | [] => []
  | l :: rest => eps.map (f l) ++ crossTasks rest eps f

/-- The join `asyncio.gather(*tasks, return_exceptions=True)` (line 131):
outcomes are delivered positionally in the order the tasks were created,
regardless of completion order, and a failed task yields its exception in
place instead of cancelling the others. -/
def gatherAll (tasks : List GItem) : List GItem := tasks

/-- Batch summary object (lines 151-158); `processing_time_ms` is wall-clock
time and is not modelled. -/
structure BatchSummary where
  total_requests : ℕ
  successful : ℕ
  failed : ℕ
  locations_processed : ℕ
  endpoints_requested : List String
deriving DecidableEq

/-- Batch response (`BatchWeatherResponse`, lines 19-22). -/
structure BatchResponse where
  results : List Dict
  summary : BatchSummary

/-- Batch orchestration, from `process_batch_request` (`src/app/batch.py`
lines 113-164). -/
def process_batch_request (net : String → Params → Except String Dict)
    (apiKey : String) (r : BatchWeatherRequest) : BatchResponse :=
  let tasks := crossTasks r.locations r.endpoints
    (fun loc ep => GItem.val (fetch_weather_data net apiKey loc ep r.units r.forecast_days))
  let results := gatherAll tasks
  let processed_results := results.map processedResult
  let error_count := (results.filter (fun x => isErrorItem x)).length
  let success_count := (results.filter (fun x => !isErrorItem x)).length
  { results := processed_results
    summary := { total_requests := tasks.length
                 successful := success_count
                 failed := error_count
                 locations_processed := r.locations.length
                 endpoints_requested := r.endpoints } }

/-- The allowed endpoint names (`src/app/main.py` line 532). -/
def valid_endpoints : List String := ["current", "forecast"]

/-- Request validation of the batch route, from `batch_weather_request` in
`src/app/main.py` (lines 517-538), run before `process_batch_request` is
called: `some (status, detail)` models `raise HTTPException`. The code
checks only upper bounds and endpoint names. Messages are abbreviated;
only their presence matters here. -/
def validate_batch (r : BatchWeatherRequest) : Option (ℕ × String) :=
  if r.locations.length > 50 then
    some (400, "Maximum 50 locations per batch request. Please split into smaller batches.")
  else if r.endpoints.length > 3 then
    some (400, "Maximum 3 endpoints per batch request")
  else
    match r.endpoints.find? (fun ep => !(valid_endpoints.contains ep)) with
    | some ep => some (400, "Invalid endpoint: " ++ ep ++ ". Valid endpoints: [current, forecast]")
    | Option.none => Option.none

/-- Fixture: a concrete location input. -/
def testLoc : BatchLocation :=
  { city := "London", country := some "UK", lat := Option.none, lon := Option.none }

/-- Fixture: a network oracle whose every request raises. -/
def testNetFail : String → Params → Except String Dict :=
  fun _ _ => Except.error "request timeout"

/-- A webhook condition's value or an extracted field value: Python
`float | str`. -/
inductive WVal where
  | num : ℚ → WVal
  | str : String → WVal
deriving DecidableEq

/-- All-digits test for float parsing. -/
def allDigits (cs : List Char) : Bool := cs.all Char.isDigit

/-- Decimal digits to a number. -/
def digitsToNat (cs : List Char) : ℕ :=
  cs.foldl (fun acc c => acc * 10 + (c.toNat - 48)) 0

/-- Split a character list at the first dot, if any. -/
def splitDot : List Char → List Char × Option (List Char)
  | [] => ([], Option.none)
  | c :: rest =>
    if c = '.' then ([], some rest)
    else
      let r := splitDot rest
      (c :: r.1, r.2)

/-- Python `float(str)` on the forms the embedded code can meet: optional
surrounding spaces, optional sign, decimal digits with an optional single
dot. Scientific notation, `inf`/`nan` and digit underscores are not
modelled; no embedded comparison exercises them. -/
def parseFloat (s : String) : Option ℚ :=
  let cs0 := s.data.dropWhile (fun c => c = ' ')
  let cs := (cs0.reverse.dropWhile (fun c => c = ' ')).reverse
  let signed : ℚ × List Char :=
    match cs with
    | '-' :: rest => (-1, rest)
    | '+' :: rest => (1, rest)
    | _ => (1, cs)
  match splitDot signed.2 with
  | (ip, Option.none) =>
    if ip ≠ [] ∧ allDigits ip then some (signed.1 * (digitsToNat ip : ℚ))
    else Option.none
  | (ip, some fp) =>
    if (ip ≠ [] ∨ fp ≠ []) ∧ allDigits ip ∧ allDigits fp then
      some (signed.1 * ((digitsToNat ip : ℚ) + (digitsToNat fp : ℚ) / (10 : ℚ) ^ fp.length))
    else Option.none

/-- Python `float(value)`: a number passes through, a string is parsed, and
a non-numeric string raises `ValueError` (the `error` arm). -/
def pyFloat : WVal → Except String ℚ
  | WVal.num q => Except.ok q
  | WVal.str s =>
    match parseFloat s with
    | some q => Except.ok q
    | Option.none => Except.error ("could not convert string to float: " ++ s)

/-- Python `str(value)`. Float formatting is approximated by a fixed
deterministic rendering; no claim depends on the rendered digits. -/
def pyStr : WVal → String
  | WVal.num q => toString q.num ++ "/" ++ toString q.den
  | WVal.str s => s

/-- A trigger condition, from `WebhookCondition` (`src/app/webhooks.py`
lines 10-13). -/
structure Condition where
  field : String
  operator : String
  value : WVal
deriving DecidableEq

/-- The `current` sub-dict of a weather reading, as the webhook engine
reads it (`weather_data["current"]`). -/
structure WCurrent where
  temperature : WVal
  humidity : WVal
  wind_speed : WVal
  description : String
deriving DecidableEq

/-- A weather reading as consumed by the webhook engine: the `location`,
`current` and `ai_insights` parts of the enhanced response dict. -/
structure WeatherData where
  city : String
  country : String
  current : WCurrent
  weather_score : WVal
deriving DecidableEq

/-- A webhook subscription, from `WebhookConfig` (lines 15-23). -/
structure WebhookConfig where
  id : Option String
  name : String
  callback_url : String
  city : String
  country : Option String
  conditions : List Condition
  is_active : Bool
  created_at : Option ℚ
deriving DecidableEq

/-- The delivery payload, from `WebhookPayload` (lines 25-33). -/
structure WebhookPayload where
  webhook_id : Option String
  webhook_name : String
  triggered_at : ℚ
  city : String
  country : String
  condition_met : Condition
  current_weather : WCurrent
  ai_insights : WVal
deriving DecidableEq

/-- The global `WEBHOOKS_DB` dict (line 36), keyed by `f"{api_key}:{id}"`. -/
abbrev WebhooksDB := List (String × WebhookConfig)

/-- The composite storage key `f"{api_key}:{webhook_id}"` (lines 45, 55). -/
def mkKey (api_key webhook_id : String) : String := api_key ++ ":" ++ webhook_id

/-- Subscription creation, from `create_webhook` (lines 38-47); the
generated `uuid4` and `utcnow` are passed in. -/
def create_webhook (webhook_id : String) (now : ℚ) (w : WebhookConfig)
    (api_key : String) (db : WebhooksDB) : String × WebhooksDB :=
  let w' := { w with id := some webhook_id, created_at := some now }
  (webhook_id, dictSet (mkKey api_key webhook_id) w' db)

/-- Python `key.startswith(pre)`. -/
def pyStartswith (s pre : String) : Bool := isPrefixList pre.data s.data

/-- Subscription listing, from `get_webhooks` (lines 49-51). -/
def get_webhooks (api_key : String) (db : WebhooksDB) : List WebhookConfig :=
  (db.filter (fun kv => pyStartswith kv.1 (api_key ++ ":"))).map Prod.snd

/-- Subscription deletion, from `delete_webhook` (lines 53-59): removes the
exact composite key if present, reporting whether it existed. -/
def delete_webhook (webhook_id api_key : String) (db : WebhooksDB) :
    WebhooksDB × Bool :=
  let key := mkKey api_key webhook_id
  match dictGet key db with
  | some _ => (dictDel key db, true)
  | Option.none => (db, false)

/-- Field extraction of `evaluate_condition` (lines 63-77): the
`description` value is lowercased; an unknown field name yields no value and
the condition never matches. -/
def extractField (c : Condition) (wd : WeatherData) : Option WVal :=
  if c.field = "temperature" then some wd.current.temperature
  else if c.field = "humidity" then some wd.current.humidity
  else if c.field = "wind_speed" then some wd.current.wind_speed
  else if c.field = "description" then some (WVal.str (pyLower wd.current.description))
  else if c.field = "weather_score" then some wd.weather_score
  else Option.none

/-- Condition evaluation, from `evaluate_condition` (`src/app/webhooks.py`
lines 61-93). The four numeric operators run `float(...)` on both sides —
left side first, as Python evaluates — so a non-numeric side raises
(`Except.error`); `==` compares the `str(...)` forms; `contains` is a
case-insensitive substring test; an unknown operator or field returns
false. -/
def evaluate_condition (c : Condition) (wd : WeatherData) : Except String Bool :=
  match extractField c wd with
  | Option.none => Except.ok false
  | some fv =>
    if c.operator = ">" then do
      let a ← pyFloat fv
      let b ← pyFloat c.value
      Except.ok (decide (a > b))
    else if c.operator = "<" then do
      let a ← pyFloat fv
      let b ← pyFloat c.value
      Except.ok (decide (a < b))
    else if c.operator = ">=" then do
      let a ← pyFloat fv
      let b ← pyFloat c.value
      Except.ok (decide (a ≥ b))
    else if c.operator = "<=" then do
      let a ← pyFloat fv
      let b ← pyFloat c.value
      Except.ok (decide (a ≤ b))
    else if c.operator = "==" then
      Except.ok (decide (pyStr fv = pyStr c.value))
    else if c.operator = "contains" then
      Except.ok (pyIn (pyLower (pyStr c.value)) (pyLower (pyStr fv)))
    else Except.ok false

/-- The numeric comparison selected by a numeric operator. -/
def numCompare (op : String) (a b : ℚ) : Bool :=
  if op = ">" then decide (a > b)
  else if op = "<" then decide (a < b)
  else if op = ">=" then decide (a ≥ b)
  else decide (a ≤ b)

/-- Whether a condition evaluates to a clean match (no exception, true). -/
def condMatches (wd : WeatherData) (c : Condition) : Bool :=
  match evaluate_condition c wd with
  | Except.ok true => true
  | _ => false

/-- Payload construction of `check_and_trigger_webhooks` (lines 129-138). -/
def mkPayload (now : ℚ) (w : WebhookConfig) (c : Condition) (wd : WeatherData) :
    WebhookPayload :=
  { webhook_id := w.id
    webhook_name := w.name
    triggered_at := now
    city := wd.city
    country := wd.country
    condition_met := c
    current_weather := wd.current
    ai_insights := wd.weather_score }

/-- Subscription selection of `check_and_trigger_webhooks` (lines 115-123):
owner prefix, active flag, case-insensitive city match. -/
def matching_webhooks (db : WebhooksDB) (api_key : String) (wd : WeatherData) :
    List WebhookConfig :=
  let city := pyLower wd.city
  (db.filter (fun kv =>
    pyStartswith kv.1 (api_key ++ ":") && kv.2.is_active
      && (pyLower kv.2.city = city))).map Prod.snd

/-- The inner condition loop of `check_and_trigger_webhooks` (lines
126-141): each matching condition dispatches one `send_webhook` task (there
is no `break`); an exception from `evaluate_condition` propagates, keeping
the dispatches already made and stopping the loop. Returns (dispatches,
propagated exception). -/
def runConditions (now : ℚ) (wd : WeatherData) (w : WebhookConfig) :
    List Condition → List (WebhookConfig × WebhookPayload) × Option String
  | [] => ([], Option.none)
  | c :: rest =>
    match evaluate_condition c wd with
    | Except.error e => ([], some e)
    | Except.ok b =>
      let hd := if b then [(w, mkPayload now w c wd)] else []
      let tail := runConditions now wd w rest
      (hd ++ tail.1, tail.2)

/-- The outer webhook loop of `check_and_trigger_webhooks` (line 125): a
propagated exception aborts the remaining subscriptions. -/
def runWebhooks (now : ℚ) (wd : WeatherData) :
    List WebhookConfig → List (WebhookConfig × WebhookPayload) × Option String
  | [] => ([], Option.none)
  | w :: rest =>
    let r1 := runConditions now wd w w.conditions
    match r1.2 with
    | some e => (r1.1, some e)
    | Option.none =>
      let r2 := runWebhooks now wd rest
      (r1.1 ++ r2.1, r2.2)

/-- Trigger pass, from `check_and_trigger_webhooks` (lines 113-141): the
first component lists the fire-and-forget deliveries dispatched via
`asyncio.create_task(send_webhook ...)`, in dispatch order. -/
def check_and_trigger_webhooks (now : ℚ) (db : WebhooksDB) (api_key : String)
    (wd : WeatherData) : List (WebhookConfig × WebhookPayload) × Option String :=
  runWebhooks now wd (matching_webhooks db api_key wd)

/-- Well-formedness of `WEBHOOKS_DB` as `create_webhook` maintains it: every
key is `owner ++ ":" ++ id` with the colon-free owner being an issued API
key (`demo_key_12345` or `f"{tier}_{token_urlsafe(32)}"`, both colon-free)
and the colon-free id being the stored config's generated `uuid4`; distinct
entries carry distinct uuids. -/
def WebhooksWF (db : WebhooksDB) : Prop :=
  (∀ kv ∈ db, ∃ o i : List Char,
      kv.1.data = o ++ ':' :: i ∧ ':' ∉ o ∧ ':' ∉ i ∧
        kv.2.id = some (String.mk i)) ∧
    (db.map (fun kv => kv.2.id)).Nodup

/-- Fixture: a reading for London with temperature 5. -/
def testReading : WeatherData :=
  { city := "London", country := "UK"
    current := { temperature := WVal.num 5, humidity := WVal.num 50,
                 wind_speed := WVal.num 3, description := "light rain" }
    weather_score := WVal.num 80 }

/-- Fixture: a condition comparing the description field numerically. -/
def testDescCond : Condition :=
  { field := "description", operator := ">", value := WVal.num 0 }

/-- Fixture: an active London subscription with two conditions that both
match `testReading`. -/
def testTwoCondHook : WebhookConfig :=
  { id := some "id1", name := "hot", callback_url := "http://cb.example/x"
    city := "London", country := Option.none
    conditions := [{ field := "temperature", operator := ">", value := WVal.num 0 },
                   { field := "temperature", operator := ">", value := WVal.num 1 }]
    is_active := true, created_at := some 0 }

/-- Fixture: a one-subscription store owned by `k1`. -/
def testDb : WebhooksDB := [(mkKey "k1" "id1", testTwoCondHook)]

-- ===================== THEOREMS =====================

/-- Helper fact for sorting: the comparison is total. -/
lemma charListLe_total : ∀ a b : List Char, charListLe a b = true ∨ charListLe b a = true
  | [], _ => Or.inl rfl
  | _ :: _, [] => Or.inr rfl
  | a :: as, b :: bs => by
    by_cases h1 : a < b
    · exact Or.inl (by simp [charListLe, h1])
    · by_cases h2 : b < a
      · exact Or.inr (by simp [charListLe, h2])
      · rcases charListLe_total as bs with h | h
        · exact Or.inl (by simp [charListLe, h1, h2, h])
        · exact Or.inr (by simp [charListLe, h1, h2, h])

/-- Helper fact for sorting: the comparison is transitive. -/
lemma charListLe_trans : ∀ a b c : List Char,
    charListLe a b = true → charListLe b c = true → charListLe a c = true
  | [], _, _ => fun _ _ => rfl
  | _ :: _, [], _ => fun h _ => by simp [charListLe] at h
  | _ :: _, _ :: _, [] => fun _ h => by simp [charListLe] at h
  | a :: as, b :: bs, c :: cs => fun hab hbc => by
    by_cases h1 : a < b
    · by_cases h2 : b < c
      · simp [charListLe, lt_trans h1 h2]
      · by_cases h3 : c < b
        · simp only [charListLe, h2, if_false, h3, if_true] at hbc
          exact absurd hbc (by simp)
        · have hbc' : b = c := le_antisymm (not_lt.mp h3) (not_lt.mp h2)
          simp [charListLe, hbc' ▸ h1]
    · by_cases h1' : b < a
      · simp only [charListLe, h1, if_false, h1', if_true] at hab
        exact absurd hab (by simp)
      · have hba : a = b := le_antisymm (not_lt.mp h1') (not_lt.mp h1)
        subst hba
        simp only [charListLe, lt_irrefl, if_false] at hab
        by_cases h2 : a < c
        · simp [charListLe, h2]
        · by_cases h3 : c < a
          · simp only [charListLe, h2, if_false, h3, if_true] at hbc
            exact absurd hbc (by simp)
          · simp only [charListLe, h2, if_false, h3, if_true] at hbc ⊢
            exact charListLe_trans as bs cs hab hbc

/-- Helper fact for sorting: the comparison is antisymmetric. -/
lemma charListLe_antisymm : ∀ a b : List Char,
    charListLe a b = true → charListLe b a = true → a = b
  | [], [] => fun _ _ => rfl
  | [], _ :: _ => fun _ h => by simp [charListLe] at h
  | _ :: _, [] => fun h _ => by simp [charListLe] at h
  | a :: as, b :: bs => fun hab hba => by
    by_cases h1 : a < b
    · simp only [charListLe, h1, lt_asymm h1, if_false, if_true] at hba
      exact absurd hba (by simp)
    · by_cases h2 : b < a
      · simp only [charListLe, h1, h2, if_false, if_true] at hab
        exact absurd hab (by simp)
      · have hba' : a = b := le_antisymm (not_lt.mp h2) (not_lt.mp h1)
        subst hba'
        simp only [charListLe, lt_irrefl, if_false] at hab hba
        rw [charListLe_antisymm as bs hab hba]

instance : IsTotal (String × PVal) keyLe := ⟨fun a b => charListLe_total a.1.data b.1.data⟩

instance : IsTrans (String × PVal) keyLe :=
  ⟨fun _ _ _ h1 h2 => charListLe_trans _ _ _ h1 h2⟩

/-- Helper: reading back the key just written. -/
lemma dictGet_dictSet (k : String) (v : β) (l : List (String × β)) :
    dictGet k (dictSet k v l) = some v := by
  induction l with
  | nil => simp [dictGet, dictSet]
  | cons hd tl ih =>
    by_cases h : hd.1 = k
    · simp [dictGet, dictSet, h]
    · simpa [dictGet, dictSet, h] using ih

/-- Helper: deleting a present key removes exactly one binding. -/
lemma dictDel_length (k : String) (v : β) (l : List (String × β))
    (h : dictGet k l = some v) : (dictDel k l).length + 1 = l.length := by
  induction l with
  | nil => simp [dictGet] at h
  | cons hd tl ih =>
    by_cases hk : hd.1 = k
    · simp [dictDel, hk]
    · simp only [dictGet, hk, if_false] at h
      simpa [dictDel, hk] using ih h

/-- Helper: the key ordering restricted to pairs with distinct keys; on a
duplicate-free dict this is antisymmetric. -/
def keyLt (a b : String × PVal) : Prop := keyLe a b ∧ a.1 ≠ b.1

instance : IsAntisymm (String × PVal) keyLt :=
  ⟨fun a b h1 h2 => by
    have hd : a.1.data = b.1.data := charListLe_antisymm _ _ h1.1 h2.1
    exact absurd (String.ext hd) h1.2⟩

/-- Helper: two key-permutations of a duplicate-free params dict sort to the
same list. -/
lemma insertionSort_perm_eq (p1 p2 : Params) (hperm : List.Perm p1 p2)
    (hnd : (p1.map Prod.fst).Nodup) :
    p1.insertionSort keyLe = p2.insertionSort keyLe := by
  have hs1 : List.Sorted keyLe (p1.insertionSort keyLe) :=
    List.sorted_insertionSort keyLe p1
  have hs2 : List.Sorted keyLe (p2.insertionSort keyLe) :=
    List.sorted_insertionSort keyLe p2
  have hp1 : List.Perm (p1.insertionSort keyLe) p1 := List.perm_insertionSort keyLe p1
  have hp2 : List.Perm (p2.insertionSort keyLe) p2 := List.perm_insertionSort keyLe p2
  have hps : List.Perm (p1.insertionSort keyLe) (p2.insertionSort keyLe) :=
    (hp1.trans hperm).trans hp2.symm
  have hnd1 : ((p1.insertionSort keyLe).map Prod.fst).Nodup :=
    (hnd.perm (hp1.map Prod.fst).symm)
  have hnd2 : ((p2.insertionSort keyLe).map Prod.fst).Nodup :=
    (hnd1.perm (hps.map Prod.fst))
  have hne1 : List.Pairwise (fun a b : String × PVal => a.1 ≠ b.1)
      (p1.insertionSort keyLe) := (List.pairwise_map.mp hnd1)
  have hne2 : List.Pairwise (fun a b : String × PVal => a.1 ≠ b.1)
      (p2.insertionSort keyLe) := (List.pairwise_map.mp hnd2)
  have hlt1 : List.Pairwise keyLt (p1.insertionSort keyLe) := by
    refine (hs1.and hne1).imp ?_
    exact fun h => ⟨h.1, h.2⟩
  have hlt2 : List.Pairwise keyLt (p2.insertionSort keyLe) := by
    refine (hs2.and hne2).imp ?_
    exact fun h => ⟨h.1, h.2⟩
  exact List.eq_of_perm_of_sorted hps hlt1 hlt2

/-- Helper: key derivation only depends on params up to key-order
permutation (for duplicate-free keys). -/
lemma generate_key_perm (e : String) (p1 p2 : Params) (hperm : List.Perm p1 p2)
    (hnd : (p1.map Prod.fst).Nodup) :
    _generate_key e p1 = _generate_key e p2 := by
  unfold _generate_key
  rw [insertionSort_perm_eq p1 p2 hperm hnd]

/-- C6: a `get` on an entry whose age `now - timestamp` is at least
`ttl_seconds` returns absent AND removes the entry, so `get_stats` afterwards
reports `total_entries` decreased by at least one. -/
theorem cache_expired_get_evicts {α : Type} (ttl now : ℚ) (e : String) (p : Params)
    (c : Cache α) (entry : CacheEntry α)
    (hmem : dictGet (_generate_key e p) c = some entry)
    (hexp : ttl ≤ now - entry.timestamp) :
    (cache_get ttl now e p c).1 = Option.none ∧
      (get_stats (cache_get ttl now e p c).2).total_entries + 1 ≤
        (get_stats c).total_entries := by
  have hlt : ¬ (now - entry.timestamp < ttl) := not_lt.mpr hexp
  have hlen := dictDel_length (_generate_key e p) entry c hmem
  unfold cache_get
  simp only [hmem, hlt, if_false, get_stats]
  exact ⟨trivial, by omega⟩

/-- C6 witness: a value cached at t=0 with TTL 300 read back at t=301. -/
theorem cache_expired_get_evicts_witness :
    (cache_get 300 301 "current_weather"
        [("city", PVal.str "London"), ("units", PVal.str "metric")]
        (cache_set 0 "current_weather"
          [("city", PVal.str "London"), ("units", PVal.str "metric")] (42 : ℕ) [])).1
        = Option.none ∧
      (get_stats (cache_get 300 301 "current_weather"
        [("city", PVal.str "London"), ("units", PVal.str "metric")]
        (cache_set 0 "current_weather"
          [("city", PVal.str "London"), ("units", PVal.str "metric")] (42 : ℕ) [])).2).total_entries + 1 ≤
      (get_stats (cache_set 0 "current_weather"
          [("city", PVal.str "London"), ("units", PVal.str "metric")] (42 : ℕ) [])).total_entries :=
  cache_expired_get_evicts 300 301 "current_weather"
    [("city", PVal.str "London"), ("units", PVal.str "metric")]
    (cache_set 0 "current_weather"
      [("city", PVal.str "London"), ("units", PVal.str "metric")] (42 : ℕ) [])
    { data := 42, timestamp := 0, hits := 0, endpoint := "current_weather" }
    (by decide) (by norm_num)

/-- C7: key derivation is invariant under key-order permutation of a
duplicate-free params dict, and a `get` with the permuted params within the
TTL returns exactly the value just `set`. -/
theorem cache_key_determinism {α : Type} (ttl t0 t1 : ℚ) (e : String)
    (p1 p2 : Params) (r : α) (c : Cache α)
    (hperm : List.Perm p1 p2) (hnd : (p1.map Prod.fst).Nodup)
    (hfresh : t1 - t0 < ttl) :
    _generate_key e p1 = _generate_key e p2 ∧
      (cache_get ttl t1 e p2 (cache_set t0 e p1 r c)).1 = some r := by
  have hkey := generate_key_perm e p1 p2 hperm hnd
  refine ⟨hkey, ?_⟩
  unfold cache_get cache_set
  rw [← hkey]
  simp only [dictGet_dictSet, hfresh, if_true]

/-- C7 witness: params `a=1, b=2` set at t=0 and read as `b=2, a=1` at t=1
with TTL 300. -/
theorem cache_key_determinism_witness :
    _generate_key "current_weather" [("a", PVal.num 1), ("b", PVal.num 2)] =
        _generate_key "current_weather" [("b", PVal.num 2), ("a", PVal.num 1)] ∧
      (cache_get 300 1 "current_weather" [("b", PVal.num 2), ("a", PVal.num 1)]
        (cache_set 0 "current_weather" [("a", PVal.num 1), ("b", PVal.num 2)]
          (7 : ℕ) [])).1 = some 7 :=
  cache_key_determinism 300 0 1 "current_weather"
    [("a", PVal.num 1), ("b", PVal.num 2)] [("b", PVal.num 2), ("a", PVal.num 1)]
    7 [] (List.Perm.swap ("b", PVal.num 2) ("a", PVal.num 1) [])
    (by decide) (by norm_num)

/-- C4 (counterexample to the claim as stated): a request with an empty
locations list, and one with an empty endpoints list, pass validation
untouched — the handler checks only the upper bounds and the endpoint
names, so the claimed rejection of empty lists does not happen. -/
theorem batch_validation_accepts_empty :
    validate_batch
        { locations := [], endpoints := ["current"], units := "metric", forecast_days := 5 }
        = Option.none ∧
      validate_batch
        { locations := [{ city := "London", country := some "UK",
                          lat := Option.none, lon := Option.none }],
          endpoints := [], units := "metric", forecast_days := 5 }
        = Option.none := by
  exact ⟨rfl, rfl⟩

/-- C4 (amended): validation — run synchronously before `process_batch_request`
is invoked — rejects a request with a 400-status descriptive message exactly
when the locations list is longer than 50, the endpoints list is longer
than 3, or some endpoint is outside the allowed set; empty lists are
accepted. -/
theorem batch_validation_criteria (r : BatchWeatherRequest) :
    (validate_batch r).isSome ↔
      (50 < r.locations.length ∨ 3 < r.endpoints.length ∨
        ∃ ep ∈ r.endpoints, ep ∉ valid_endpoints) := by
  unfold validate_batch
  by_cases h1 : r.locations.length > 50
  · simp [h1]
  · by_cases h2 : r.endpoints.length > 3
    · simp [h1, h2]
    · cases hf : r.endpoints.find? (fun ep => !(valid_endpoints.contains ep)) with
      | some ep =>
        simp only [h1, h2, if_false, hf, Option.isSome_some, true_iff]
        refine Or.inr (Or.inr ⟨ep, List.mem_of_find?_eq_some hf, ?_⟩)
        have := List.find?_some hf
        simpa using this
      | none =>
        simp only [h1, h2, if_false, hf, Option.isSome_none, Bool.false_eq_true,
          false_iff, false_or]
        rintro ⟨ep, hep, hne⟩
        have := List.find?_eq_none.mp hf ep hep
        simp only [Bool.not_eq_true', Bool.not_eq_false] at this
        exact hne (by simpa using this)

/-- C4 witness: 51 locations trip the bound check. -/
theorem batch_validation_criteria_witness :
    (validate_batch
      { locations := List.replicate 51
          { city := "A", country := Option.none, lat := Option.none, lon := Option.none },
        endpoints := ["current"], units := "metric", forecast_days := 5 }).isSome :=
  (batch_validation_criteria _).mpr (Or.inl (by decide))

/-- Helper: the task list has one cell per (location, endpoint) pair. -/
lemma crossTasks_length (locs : List α) (eps : List β) (f : α → β → γ) :
    (crossTasks locs eps f).length = locs.length * eps.length := by
  induction locs with
  | nil => simp [crossTasks]
  | cons l rest ih =>
    simp only [crossTasks, List.length_append, List.length_map, List.length_cons, ih]
    rw [Nat.succ_mul, Nat.add_comm]

/-- Helper: cell `(i, j)` of the task list is the fetch of the `i`-th
location with the `j`-th endpoint. -/
lemma crossTasks_getElem (locs : List α) (eps : List β) (f : α → β → γ)
    (i j : ℕ) (a : α) (b : β)
    (hi : locs[i]? = some a) (hj : eps[j]? = some b) :
    (crossTasks locs eps f)[i * eps.length + j]? = some (f a b) := by
  induction locs generalizing i with
  | nil => simp at hi
  | cons l rest ih =>
    cases i with
    | zero =>
      simp only [List.getElem?_cons_zero, Option.some.injEq] at hi
      subst hi
      have hjlen : j < eps.length := by
        by_contra hge
        rw [List.getElem?_eq_none (by omega)] at hj
        exact Option.noConfusion hj
      rw [crossTasks, Nat.zero_mul, Nat.zero_add, List.getElem?_append,
        if_pos (by simpa using hjlen)]
      simp [List.getElem?_map, hj]
    | succ i' =>
      simp only [List.getElem?_cons_succ] at hi
      have hrec := ih i' hi
      rw [crossTasks, show (i' + 1) * eps.length + j
            = eps.length + (i' * eps.length + j) by ring,
        List.getElem?_append, if_neg (by simp)]
      simpa using hrec

/-- Helper: mapping over the task list maps each cell. -/
lemma crossTasks_map (locs : List α) (eps : List β) (f : α → β → γ) (g : γ → δ) :
    (crossTasks locs eps f).map g = crossTasks locs eps (fun a b => g (f a b)) := by
  induction locs with
  | nil => simp [crossTasks]
  | cons l rest ih =>
    simp [crossTasks, ih, List.map_map, Function.comp]

/-- Helper: the record at position `i * |endpoints| + j` of the processed
batch results is the fetch outcome of `(locations[i], endpoints[j])`. -/
lemma process_results_entry (net : String → Params → Except String Dict)
    (apiKey : String) (r : BatchWeatherRequest) (i j : ℕ)
    (loc : BatchLocation) (ep : String)
    (hi : r.locations[i]? = some loc) (hj : r.endpoints[j]? = some ep) :
    (process_batch_request net apiKey r).results[i * r.endpoints.length + j]? =
      some (fetch_weather_data net apiKey loc ep r.units r.forecast_days) := by
  simp only [process_batch_request, gatherAll]
  rw [crossTasks_map]
  exact crossTasks_getElem r.locations r.endpoints
    (fun loc ep => processedResult
      (GItem.val (fetch_weather_data net apiKey loc ep r.units r.forecast_days)))
    i j loc ep hi hj

/-- C5: the batch results list has exactly one record per (location,
endpoint) input pair — locations outer, endpoints inner — and position
`i * |endpoints| + j` holds exactly the outcome of fetching
`(locations[i], endpoints[j])`, error payloads recorded in place. The join
is positional by construction (`gatherAll`), so completion order of the
concurrent tasks cannot reorder it. -/
theorem batch_positional_integrity (net : String → Params → Except String Dict)
    (apiKey : String) (r : BatchWeatherRequest) (i j : ℕ)
    (loc : BatchLocation) (ep : String)
    (hi : r.locations[i]? = some loc) (hj : r.endpoints[j]? = some ep) :
    (process_batch_request net apiKey r).results.length =
        r.locations.length * r.endpoints.length ∧
      (process_batch_request net apiKey r).results[i * r.endpoints.length + j]? =
        some (fetch_weather_data net apiKey loc ep r.units r.forecast_days) := by
  constructor
  · simp only [process_batch_request, gatherAll, List.length_map]
    exact crossTasks_length r.locations r.endpoints
      (fun loc ep => GItem.val (fetch_weather_data net apiKey loc ep r.units r.forecast_days))
  · exact process_results_entry net apiKey r i j loc ep hi hj

/-- C5 witness: a 2-location, 2-endpoint batch against the always-failing
oracle; cell (1, 0) is the fetch of the second location with the first
endpoint. -/
theorem batch_positional_integrity_witness :
    (process_batch_request testNetFail "k"
        { locations := [testLoc,
            { city := "Paris", country := some "FR", lat := Option.none, lon := Option.none }],
          endpoints := ["current", "forecast"], units := "metric",
          forecast_days := 5 }).results.length = 2 * 2 ∧
      (process_batch_request testNetFail "k"
        { locations := [testLoc,
            { city := "Paris", country := some "FR", lat := Option.none, lon := Option.none }],
          endpoints := ["current", "forecast"], units := "metric",
          forecast_days := 5 }).results[1 * 2 + 0]? =
        some (fetch_weather_data testNetFail "k"
          { city := "Paris", country := some "FR", lat := Option.none, lon := Option.none }
          "current" "metric" 5) :=
  batch_positional_integrity testNetFail "k"
    { locations := [testLoc,
        { city := "Paris", country := some "FR", lat := Option.none, lon := Option.none }],
      endpoints := ["current", "forecast"], units := "metric", forecast_days := 5 }
    1 0 _ _ rfl rfl

/-- C9 (counterexample to the claim as stated): the error payload for an
unsupported endpoint name carries only the message — it is tagged with
neither its originating location nor its endpoint. -/
theorem fetch_unsupported_endpoint_untagged :
    fetch_weather_data testNetFail "k" testLoc "analytics" "metric" 5 =
        [("error", DVal.str "Unsupported endpoint: analytics")] ∧
      dictGet "location" (fetch_weather_data testNetFail "k" testLoc "analytics" "metric" 5)
          = Option.none ∧
      dictGet "endpoint" (fetch_weather_data testNetFail "k" testLoc "analytics" "metric" 5)
          = Option.none := by
  exact ⟨rfl, rfl, rfl⟩

/-- C9 (amended): every unit of work resolves to a payload of its own — a
raised exception on a supported endpoint becomes an error dict tagged with
the originating location and endpoint; an unsupported endpoint name becomes
an error dict carrying only its message; and the record a batch cell
produces depends only on that cell's own fetch outcome, so one task's
failure never changes or removes a sibling's record. -/
theorem fetch_failure_isolation :
    (∀ (net : String → Params → Except String Dict) (apiKey : String)
        (loc : BatchLocation) (ep units : String) (fd : ℕ) (emsg : String),
      (ep = "current" ∨ ep = "forecast") →
      net (urlFor ep) (fetchParams loc apiKey units ep fd) = Except.error emsg →
      fetch_weather_data net apiKey loc ep units fd =
        [("error", DVal.str emsg), ("location", DVal.locd loc),
         ("endpoint", DVal.str ep)]) ∧
    (∀ (net : String → Params → Except String Dict) (apiKey : String)
        (loc : BatchLocation) (ep units : String) (fd : ℕ),
      ep ≠ "current" → ep ≠ "forecast" →
      fetch_weather_data net apiKey loc ep units fd =
        [("error", DVal.str ("Unsupported endpoint: " ++ ep))]) ∧
    (∀ (net net' : String → Params → Except String Dict) (apiKey : String)
        (r : BatchWeatherRequest) (i j : ℕ) (loc : BatchLocation) (ep : String),
      r.locations[i]? = some loc → r.endpoints[j]? = some ep →
      fetch_weather_data net apiKey loc ep r.units r.forecast_days =
        fetch_weather_data net' apiKey loc ep r.units r.forecast_days →
      (process_batch_request net apiKey r).results[i * r.endpoints.length + j]? =
        (process_batch_request net' apiKey r).results[i * r.endpoints.length + j]?) := by
  refine ⟨?_, ?_, ?_⟩
  · intro net apiKey loc ep units fd emsg hep hnet
    unfold fetch_weather_data
    rw [if_pos hep, hnet]
  · intro net apiKey loc ep units fd h1 h2
    unfold fetch_weather_data
    rw [if_neg (by tauto)]
  · intro net net' apiKey r i j loc ep hi hj hcell
    have h1 := process_results_entry net apiKey r i j loc ep hi hj
    have h2 := process_results_entry net' apiKey r i j loc ep hi hj
    rw [h1, h2, hcell]

/-- C9 witness: a timeout on `current` for the test location is tagged; the
unsupported name `analytics` is untagged; and changing the oracle behind
every other cell leaves cell (0, 0) untouched. -/
theorem fetch_failure_isolation_witness :
    fetch_weather_data testNetFail "k" testLoc "current" "metric" 5 =
        [("error", DVal.str "request timeout"), ("location", DVal.locd testLoc),
         ("endpoint", DVal.str "current")] ∧
      fetch_weather_data testNetFail "k" testLoc "analytics2" "metric" 5 =
        [("error", DVal.str "Unsupported endpoint: analytics2")] ∧
      (process_batch_request testNetFail "k"
          { locations := [testLoc], endpoints := ["current"], units := "metric",
            forecast_days := 5 }).results[0 * 1 + 0]? =
        (process_batch_request testNetFail "k"
          { locations := [testLoc], endpoints := ["current"], units := "metric",
            forecast_days := 5 }).results[0 * 1 + 0]? :=
  ⟨fetch_failure_isolation.1 testNetFail "k" testLoc "current" "metric" 5
      "request timeout" (Or.inl rfl) rfl,
    fetch_failure_isolation.2.1 testNetFail "k" testLoc "analytics2" "metric" 5
      (by decide) (by decide),
    fetch_failure_isolation.2.2 testNetFail testNetFail "k"
      { locations := [testLoc], endpoints := ["current"], units := "metric",
        forecast_days := 5 } 0 0 testLoc "current" rfl rfl rfl⟩

/-- C10: if `lat` is absent or `0.0`, or `lon` is absent or `0.0`, Python
truthiness makes `if lat and lon:` fail, so both the cache key parameters
and the provider query fall back to the city/country form — no `lat`/`lon`
parameters appear. -/
theorem zero_coordinate_city_fallback (city : String) (country : Option String)
    (lat lon : Option ℚ) (units apiKey : String)
    (h : lat = Option.none ∨ lat = some 0 ∨ lon = Option.none ∨ lon = some 0) :
    cache_key_for_weather city country lat lon units =
        [("city", PVal.str city),
         ("country", match country with
            | some co => PVal.str co
            | Option.none => PVal.null),
         ("units", PVal.str units)] ∧
      buildParams { city := city, country := country, lat := lat, lon := lon }
          apiKey units =
        [("q", PVal.str (match country with
            | some co => city ++ "," ++ co
            | Option.none => city)),
         ("appid", PVal.str apiKey), ("units", PVal.str units)] := by
  have hf : (truthy lat && truthy lon) = false := by
    rcases h with h | h | h | h <;> subst h <;> simp [truthy]
  constructor
  · unfold cache_key_for_weather
    rw [hf]
    simp
  · unfold buildParams
    rw [hf]
    simp

/-- C10 witness: a location on the equator (`lat = 0.0`) is cached under and
queried by its city name. -/
theorem zero_coordinate_city_fallback_witness :
    cache_key_for_weather "Quito" (some "EC") (some 0) (some (-78)) "metric" =
        [("city", PVal.str "Quito"), ("country", PVal.str "EC"),
         ("units", PVal.str "metric")] ∧
      buildParams
          { city := "Quito", country := some "EC", lat := some 0, lon := some (-78) }
          "k" "metric" =
        [("q", PVal.str "Quito,EC"), ("appid", PVal.str "k"),
         ("units", PVal.str "metric")] :=
  zero_coordinate_city_fallback "Quito" (some "EC") (some 0) (some (-78))
    "metric" "k" (Or.inr (Or.inl rfl))

/-- Helper: each adjustment block stays inside its fixed band. -/
lemma tempAdjust_bounds (temp : ℚ) : 0 ≤ tempAdjust temp ∧ tempAdjust temp ≤ 30 := by
  unfold tempAdjust; split_ifs <;> constructor <;> decide

/-- Helper: humidity adjustment band. -/
lemma humidityAdjust_bounds (humidity : ℚ) :
    0 ≤ humidityAdjust humidity ∧ humidityAdjust humidity ≤ 20 := by
  unfold humidityAdjust; split_ifs <;> constructor <;> decide

/-- Helper: condition adjustment band. -/
lemma conditionAdjust_bounds (desc : String) :
    -30 ≤ conditionAdjust desc ∧ conditionAdjust desc ≤ 20 := by
  unfold conditionAdjust; split_ifs <;> constructor <;> decide

/-- Helper: the weather score always lies in [20, 100]; in particular the
lower clamp at 0 is never the binding bound. -/
lemma weather_score_bounds (temp humidity : ℚ) (description : String) :
    20 ≤ _calculate_weather_score temp humidity description ∧
      _calculate_weather_score temp humidity description ≤ 100 := by
  have ht := tempAdjust_bounds temp
  have hh := humidityAdjust_bounds humidity
  have hc := conditionAdjust_bounds (pyLower description)
  unfold _calculate_weather_score
  omega

/-- C8 (amended): the score is an integer in [0, 100]; a reading engineered to
accumulate more than 100 points (ideal temperature, ideal humidity, clear sky)
clamps at exactly 100; but the worst engineered reading yields 20, the true
minimum — the lower clamp at 0 is unreachable. -/
theorem weather_score_clamping :
    (∀ (temp humidity : ℚ) (description : String),
        0 ≤ _calculate_weather_score temp humidity description ∧
          _calculate_weather_score temp humidity description ≤ 100) ∧
      _calculate_weather_score 20 50 "clear sky" = 100 ∧
      _calculate_weather_score 50 0 "thunderstorm" = 20 ∧
      (∀ (temp humidity : ℚ) (description : String),
        20 ≤ _calculate_weather_score temp humidity description) := by
  refine ⟨fun t h d => ?_, by decide, by decide, fun t h d => (weather_score_bounds t h d).1⟩
  have hb := weather_score_bounds t h d
  exact ⟨by linarith [hb.1], hb.2⟩

/-- C8 (counterexample to the claim as stated): no reading at all can make the
score reach 0, so no engineered worst case "clamps at exactly 0"; the worst
case (score 20) is exhibited by `weather_score_clamping`. -/
theorem weather_score_never_zero :
    ¬ ∃ (temp humidity : ℚ) (description : String),
        _calculate_weather_score temp humidity description = 0 := by
  rintro ⟨t, h, d, hz⟩
  have hb := (weather_score_bounds t h d).1
  omega

/-- C1 (counterexample to the claim as stated): a numeric operator applied
to the non-numeric `description` field raises `ValueError` from
`float(...)` — it does not return false. -/
theorem evaluate_nonnumeric_raises :
    evaluate_condition testDescCond testReading =
        Except.error "could not convert string to float: light rain" ∧
      ∀ b, evaluate_condition testDescCond testReading ≠ Except.ok b := by
  have h : evaluate_condition testDescCond testReading =
      Except.error "could not convert string to float: light rain" := rfl
  exact ⟨h, fun b hb => by rw [h] at hb; exact Except.noConfusion hb⟩

/-- C1 (amended): for the numeric operators the extracted field value and
the condition value are both coerced with `float(...)`, field side first;
when both coerce the comparison result is returned, and when either side
is non-numeric the `ValueError` propagates (the condition does not return
false). -/
theorem numeric_operator_coercion (c : Condition) (wd : WeatherData) (fv : WVal)
    (hf : extractField c wd = some fv)
    (hop : c.operator = ">" ∨ c.operator = "<" ∨ c.operator = ">=" ∨ c.operator = "<=") :
    evaluate_condition c wd =
      (pyFloat fv).bind (fun a => (pyFloat c.value).bind (fun b =>
        Except.ok (numCompare c.operator a b))) := by
  rcases hop with h | h | h | h
  · simp only [evaluate_condition, hf, h, if_true]
    have hnc : ∀ a b : ℚ, numCompare ">" a b = decide (a > b) := fun a b => by
      unfold numCompare; rw [if_pos rfl]
    cases hv : pyFloat fv <;> cases hw : pyFloat c.value <;>
      simp [Except.bind, bind, hv, hw, hnc]
  · simp only [evaluate_condition, hf, h, if_true]
    have hnc : ∀ a b : ℚ, numCompare "<" a b = decide (a < b) := fun a b => by
      unfold numCompare; rw [if_neg (by decide), if_pos rfl]
    cases hv : pyFloat fv <;> cases hw : pyFloat c.value <;>
      simp [Except.bind, bind, hv, hw, hnc]
  · simp only [evaluate_condition, hf, h, if_true]
    have hnc : ∀ a b : ℚ, numCompare ">=" a b = decide (a ≥ b) := fun a b => by
      unfold numCompare; rw [if_neg (by decide), if_neg (by decide), if_pos rfl]
    cases hv : pyFloat fv <;> cases hw : pyFloat c.value <;>
      simp [Except.bind, bind, hv, hw, hnc]
  · simp only [evaluate_condition, hf, h, if_true]
    have hnc : ∀ a b : ℚ, numCompare "<=" a b = decide (a ≤ b) := fun a b => by
      unfold numCompare
      rw [if_neg (by decide), if_neg (by decide), if_neg (by decide)]
    cases hv : pyFloat fv <;> cases hw : pyFloat c.value <;>
      simp [Except.bind, bind, hv, hw, hnc]

/-- C1 witness: `temperature > 30` against temperature 5 coerces both sides
and returns false. -/
theorem numeric_operator_coercion_witness :
    evaluate_condition
        { field := "temperature", operator := ">", value := WVal.num 30 }
        testReading = Except.ok false := by
  rw [numeric_operator_coercion
    { field := "temperature", operator := ">", value := WVal.num 30 }
    testReading (WVal.num 5) rfl (Or.inl rfl)]
  rfl

/-- C2 (counterexample to the claim as stated): one active matching
subscription whose two conditions both match dispatches two deliveries for
a single reading — the loop has no `break`, so it is one delivery per
matching condition, not at most one per subscription. -/
theorem webhook_double_dispatch :
    (matching_webhooks testDb "k1" testReading).length = 1 ∧
      ((check_and_trigger_webhooks 0 testDb "k1" testReading).1).length = 2 := by
  exact ⟨rfl, rfl⟩

/-- Helper: with no exception, the condition loop dispatches exactly one
delivery per condition that evaluates true, in order. -/
lemma runConditions_clean (now : ℚ) (wd : WeatherData) (w : WebhookConfig) :
    ∀ cs : List Condition, (runConditions now wd w cs).2 = Option.none →
      (runConditions now wd w cs).1 =
        (cs.filter (condMatches wd)).map (fun c => (w, mkPayload now w c wd))
  | [] => fun _ => rfl
  | c :: rest => fun h => by
    cases hev : evaluate_condition c wd with
    | error e => simp [runConditions, hev] at h
    | ok b =>
      have h' : (runConditions now wd w rest).2 = Option.none := by
        simpa [runConditions, hev] using h
      have ih := runConditions_clean now wd w rest h'
      cases b
      · simp [runConditions, hev, List.filter_cons, condMatches, ih]
      · simp [runConditions, hev, List.filter_cons, condMatches, ih]

/-- Helper: with no exception, the webhook loop concatenates each matching
subscription's per-condition dispatches. -/
lemma runWebhooks_clean (now : ℚ) (wd : WeatherData) :
    ∀ ws : List WebhookConfig, (runWebhooks now wd ws).2 = Option.none →
      (runWebhooks now wd ws).1 =
        (ws.map (fun w => (w.conditions.filter (condMatches wd)).map
          (fun c => (w, mkPayload now w c wd)))).flatten
  | [] => fun _ => rfl
  | w :: rest => fun h => by
    cases hc : (runConditions now wd w w.conditions).2 with
    | some e => simp [runWebhooks, hc] at h
    | none =>
      have h' : (runWebhooks now wd rest).2 = Option.none := by
        simpa [runWebhooks, hc] using h
      simp [runWebhooks, hc, runConditions_clean now wd w w.conditions hc,
        runWebhooks_clean now wd rest h']

/-- C2 (amended): `check_and_trigger_webhooks` evaluates every condition of
every active matching subscription independently (OR semantics) and
dispatches one delivery per matching condition — a subscription with
several matching conditions is delivered once per match, and it is
delivered at all exactly when some condition matches. -/
theorem webhook_delivery_per_matching_condition (now : ℚ) (db : WebhooksDB)
    (api_key : String) (wd : WeatherData)
    (hok : (check_and_trigger_webhooks now db api_key wd).2 = Option.none) :
    (check_and_trigger_webhooks now db api_key wd).1 =
      ((matching_webhooks db api_key wd).map (fun w =>
        (w.conditions.filter (condMatches wd)).map
          (fun c => (w, mkPayload now w c wd)))).flatten :=
  runWebhooks_clean now wd (matching_webhooks db api_key wd) hok

/-- C2 witness: the two-condition London subscription against the London
reading dispatches per matching condition. -/
theorem webhook_delivery_per_matching_condition_witness :
    (check_and_trigger_webhooks 0 testDb "k1" testReading).1 =
      ((matching_webhooks testDb "k1" testReading).map (fun w =>
        (w.conditions.filter (condMatches testReading)).map
          (fun c => (w, mkPayload 0 w c testReading)))).flatten :=
  webhook_delivery_per_matching_condition 0 testDb "k1" testReading rfl

/-- Helper: a successful dict lookup means the pair is in the list. -/
lemma dictGet_mem {β : Type} (k : String) (v : β) :
    ∀ l : List (String × β), dictGet k l = some v → (k, v) ∈ l
  | [] => fun h => by simp [dictGet] at h
  | (k', v') :: rest => fun h => by
    by_cases hk : k' = k
    · subst hk
      simp only [dictGet, if_true, ite_true, Option.some.injEq] at h
      subst h
      exact List.mem_cons_self _ _
    · simp only [dictGet, hk, if_false] at h
      exact List.mem_cons_of_mem _ (dictGet_mem k v rest h)

/-- Helper: data view of the composite key. -/
lemma mkKey_data (o i : String) : (mkKey o i).data = o.data ++ ':' :: i.data := by
  show (o ++ ":" ++ i).data = o.data ++ ':' :: i.data
  rw [String.data_append, String.data_append]
  simp

/-- Helper: splitting at a colon is unambiguous when both owner parts are
colon-free. -/
lemma colon_append_inj : ∀ (a b x y : List Char), ':' ∉ a → ':' ∉ b →
    a ++ ':' :: x = b ++ ':' :: y → a = b ∧ x = y
  | [], [], x, y => fun _ _ h => by
    simp only [List.nil_append, List.cons.injEq] at h
    exact ⟨rfl, h.2⟩
  | [], b :: bs, x, y => fun _ hb h => by
    simp only [List.nil_append, List.cons_append, List.cons.injEq] at h
    exact absurd (h.1 ▸ List.mem_cons_self b bs) (fun hm => hb (by simp [← h.1] at hm ⊢))
  | a :: as, [], x, y => fun ha _ h => by
    simp only [List.cons_append, List.nil_append, List.cons.injEq] at h
    exact absurd (List.mem_cons_self a as) (fun hm => ha (by simp [h.1] at hm ⊢))
  | a :: as, b :: bs, x, y => fun ha hb h => by
    simp only [List.cons_append, List.cons.injEq] at h
    obtain ⟨hab, hxy⟩ := colon_append_inj as bs x y
      (fun hm => ha (List.mem_cons_of_mem _ hm))
      (fun hm => hb (List.mem_cons_of_mem _ hm)) h.2
    exact ⟨by rw [h.1, hab], hxy⟩

/-- Helper: `isPrefixList` captures list prefixes. -/
lemma isPrefixList_iff : ∀ p l : List Char, isPrefixList p l = true ↔ ∃ t, l = p ++ t
  | [], l => by simp [isPrefixList]
  | a :: as, [] => by
    simp [isPrefixList]
  | a :: as, b :: bs => by
    simp only [isPrefixList, Bool.and_eq_true, beq_iff_eq]
    constructor
    · rintro ⟨rfl, h⟩
      obtain ⟨t, rfl⟩ := (isPrefixList_iff as bs).mp h
      exact ⟨t, rfl⟩
    · rintro ⟨t, ht⟩
      simp only [List.cons_append, List.cons.injEq] at ht
      exact ⟨ht.1.symm, (isPrefixList_iff as bs).mpr ⟨t, ht.2⟩⟩

/-- C3: in a store maintained by `create_webhook` (composite colon-joined
keys, colon-free owners and uuids, globally unique uuids), a second owner
can neither delete the first owner's subscription with its exact id —
`delete_webhook` returns false and leaves the store unchanged — nor see it
in `get_webhooks`. -/
theorem webhook_owner_isolation (db : WebhooksDB) (o1 o2 wid : String)
    (w : WebhookConfig) (hwf : WebhooksWF db)
    (h1 : ':' ∉ o1.data) (h2 : ':' ∉ o2.data) (hne : o1 ≠ o2)
    (hmem : dictGet (mkKey o1 wid) db = some w) :
    delete_webhook wid o2 db = (db, false) ∧ w ∉ get_webhooks o2 db := by
  obtain ⟨hkeys, hids⟩ := hwf
  have hin1 : (mkKey o1 wid, w) ∈ db := dictGet_mem _ _ db hmem
  obtain ⟨o', i', hk1, ho', hi', hid1⟩ := hkeys _ hin1
  rw [mkKey_data] at hk1
  obtain ⟨ho1eq, hwid⟩ := colon_append_inj o1.data o' wid.data i' h1 ho' hk1
  have hidw : w.id = some wid := by
    rw [hid1, ← hwid]
  have hinj := List.inj_on_of_nodup_map hids
  constructor
  · unfold delete_webhook
    cases hget : dictGet (mkKey o2 wid) db with
    | none => simp [hget]
    | some w' =>
      exfalso
      have hin2 : (mkKey o2 wid, w') ∈ db := dictGet_mem _ _ db hget
      obtain ⟨o2', i2', hk2, ho2', hi2', hid2⟩ := hkeys _ hin2
      rw [mkKey_data] at hk2
      obtain ⟨ho2eq, hwid2⟩ := colon_append_inj o2.data o2' wid.data i2' h2 ho2' hk2
      have hidw' : w'.id = some wid := by
        rw [hid2, ← hwid2]
      have heq : (mkKey o1 wid, w) = (mkKey o2 wid, w') :=
        hinj hin1 hin2 (by simp [hidw, hidw'])
      have hkeq : mkKey o1 wid = mkKey o2 wid := congrArg Prod.fst heq
      have hd := congrArg String.data hkeq
      rw [mkKey_data, mkKey_data] at hd
      exact hne (String.ext (colon_append_inj _ _ _ _ h1 h2 hd).1)
  · intro hmemg
    unfold get_webhooks at hmemg
    obtain ⟨kv, hkvf, hkv2⟩ := List.mem_map.mp hmemg
    have hkvdb : kv ∈ db := List.mem_of_mem_filter hkvf
    have hpred : pyStartswith kv.1 (o2 ++ ":") = true := by
      simpa using List.of_mem_filter hkvf
    obtain ⟨o3, i3, hk3, ho3, hi3, hid3⟩ := hkeys _ hkvdb
    obtain ⟨t, ht⟩ := (isPrefixList_iff _ _).mp hpred
    rw [hk3, String.data_append] at ht
    have ht' : o3 ++ ':' :: i3 = o2.data ++ ':' :: t := by
      simpa [List.append_assoc] using ht
    obtain ⟨ho3eq, hi3eq⟩ := colon_append_inj o3 o2.data i3 t ho3 h2 ht'
    have hid3' : w.id = some (String.mk i3) := hkv2 ▸ hid3
    have hmkeq : String.mk i3 = wid := by
      rw [hidw] at hid3'
      exact (Option.some.injEq _ _).mp hid3'.symm
    have hi3w : i3 = wid.data := congrArg String.data hmkeq
    have hkv1 : kv.1 = mkKey o2 wid := String.ext (by rw [hk3, ho3eq, hi3w, mkKey_data])
    have heq : (mkKey o1 wid, w) = kv :=
      hinj hin1 hkvdb (by simp [hidw, hkv2, hid3', hmkeq])
    have hkeq : mkKey o1 wid = mkKey o2 wid := by
      rw [← hkv1]
      exact congrArg Prod.fst heq
    have hd := congrArg String.data hkeq
    rw [mkKey_data, mkKey_data] at hd
    exact hne (String.ext (colon_append_inj _ _ _ _ h1 h2 hd).1)

/-- C3 witness: owner `k2` can neither delete nor list the `k1`-owned
subscription even knowing its exact id. -/
theorem webhook_owner_isolation_witness :
    delete_webhook "id1" "k2" testDb = (testDb, false) ∧
      testTwoCondHook ∉ get_webhooks "k2" testDb := by
  refine webhook_owner_isolation testDb "k1" "k2" "id1" testTwoCondHook
    ⟨?_, by simp [testDb]⟩ (by decide) (by decide) (by decide) rfl
  intro kv hkv
  simp only [testDb, List.mem_singleton] at hkv
  subst hkv
  exact ⟨"k1".data, "id1".data, by decide, by decide, by decide, by decide⟩

end WeatherApi
